import Mathlib

/-!
Shallow embedding of the 828-weather-direct forecast-intelligence engine
(src/forecast-intel.js, src/unnamed/part_000, src/unnamed/part_001).

JavaScript numbers are idealized as rationals, except that NaN is modelled
explicitly (`JNum`), since several code paths read raw array values with
`?? 0`, which lets NaN through.  A sample of an hourly measurement array is
either absent (JS null / undefined / out of range), NaN, or a number
(`Sample`).  All indices are integers, because one caller
(`getForecastAlerts` on an empty series) produces the start index -1.
Wall-clock reads (`new Date()`) are abstracted as explicit parameters.
-/

namespace Weather828

/-- A JavaScript numeric value: NaN or a rational idealizing a float64. -/
inductive JNum where
  | nan : JNum
  | val (q : ℚ) : JNum
deriving DecidableEq, Repr

/-- JS addition: NaN is absorbing. -/
def jadd : JNum → JNum → JNum
  | JNum.val a, JNum.val b => JNum.val (a + b)
  | _, _ => JNum.nan

/-- JS subtraction: NaN is absorbing. -/
def jsub : JNum → JNum → JNum
  | JNum.val a, JNum.val b => JNum.val (a - b)
  | _, _ => JNum.nan

/-- JS `x < c` against a plain constant: false when x is NaN. -/
def jltC : JNum → ℚ → Bool
  | JNum.val a, c => decide (a < c)
  | JNum.nan, _ => false

/-- JS `x <= c`: false when x is NaN. -/
def jleC : JNum → ℚ → Bool
  | JNum.val a, c => decide (a ≤ c)
  | JNum.nan, _ => false

/-- JS `x > c`: false when x is NaN. -/
def jgtC : JNum → ℚ → Bool
  | JNum.val a, c => decide (c < a)
  | JNum.nan, _ => false

/-- JS `x >= c`: false when x is NaN. -/
def jgeC : JNum → ℚ → Bool
  | JNum.val a, c => decide (c ≤ a)
  | JNum.nan, _ => false

/-- JS `x < y` on two JS numbers: false when either is NaN. -/
def jltJ : JNum → JNum → Bool
  | JNum.val a, JNum.val b => decide (a < b)
  | _, _ => false

/-- JS `Math.abs`. -/
def jabs : JNum → JNum
  | JNum.val a => JNum.val |a|
  | JNum.nan => JNum.nan

/-- JS `Math.min` on two numbers: NaN when either is NaN. -/
def jminJ : JNum → JNum → JNum
  | JNum.val a, JNum.val b => JNum.val (min a b)
  | _, _ => JNum.nan

/-- JS `Math.max` on two numbers: NaN when either is NaN. -/
def jmaxJ : JNum → JNum → JNum
  | JNum.val a, JNum.val b => JNum.val (max a b)
  | _, _ => JNum.nan

/-- One sample of an hourly measurement array: absent (null / undefined /
out of range / non-numeric), NaN, or a number. -/
inductive Sample where
  | missing : Sample
  | nan : Sample
  | num (q : ℚ) : Sample
deriving DecidableEq, Repr

/-- The Open-Meteo hourly object.  A measurement array the JS object lacks
is the empty list (the code reads `hourly.x || []`). -/
structure Hourly where
  time : List String
  temperature_2m : List Sample
  dewpoint_2m : List Sample
  precipitation : List Sample
  snowfall : List Sample
  windgusts_10m : List Sample
  winddirection_10m : List Sample
  uv_index : List Sample
deriving Repr

/-- JS `arr[i]`: undefined (here: `Sample.missing`) outside `[0, length)`. -/
def jsIndex (arr : List Sample) (i : ℤ) : Sample :=
  if 0 ≤ i then arr.getD i.toNat Sample.missing else Sample.missing

/-- `safeNum(arr, i)` from forecast-intel.js: a number, or null (`none`)
when the index is out of range or the value is not a (non-NaN) number. -/
def safeNum (arr : List Sample) (i : ℤ) : Option ℚ :=
  match jsIndex arr i with
  | Sample.num q => some q
  | _ => none

/-- JS `arr[i] ?? d`: the nullish default catches null/undefined only, so a
NaN sample stays NaN. -/
def getNumD (arr : List Sample) (i : ℤ) (d : ℚ) : JNum :=
  match jsIndex arr i with
  | Sample.missing => JNum.val d
  | Sample.nan => JNum.nan
  | Sample.num q => JNum.val q

/-- The index sequence of a JS loop `for (i = s; i < e; i++)`. -/
def idxRange (s e : ℤ) : List ℤ :=
  (List.range (e - s).toNat).map (fun k => s + (k : ℤ))

/-- `avg(values)` from forecast-intel.js, applied to an all-numeric list:
arithmetic mean, null for the empty list. -/
def avgQ (l : List ℚ) : Option ℚ :=
  if l.isEmpty then none else some (l.foldl (· + ·) 0 / (l.length : ℚ))

/-- `clamp(value, min, max)` = `Math.min(max, Math.max(min, value))`. -/
def clampZ (v lo hi : ℤ) : ℤ :=
  min hi (max lo v)

/-- JS `Array.prototype.slice(s, e)` index clamping. -/
def jsSlice (l : List Sample) (s e : ℤ) : List Sample :=
  let len : ℤ := l.length
  let s' := if s < 0 then max (len + s) 0 else min s len
  let e' := if e < 0 then max (len + e) 0 else min e len
  (l.take e'.toNat).drop s'.toNat

/-- Result record of `classifyRain` / `classifySnow`. -/
structure PrecipClass where
  type : String
  label : String
  severity : ℕ
deriving DecidableEq, Repr

/-- `classifyRain(rainTotal)` from forecast-intel.js.  The argument is a JS
number because `analyzeQPF` can feed it NaN; every `<` on NaN is false, so
NaN falls through to the last bucket. -/
def classifyRain (rainTotal : JNum) : PrecipClass :=
  if jltC rainTotal 0.01 then ⟨"none", "No rain", 0⟩
  else if jltC rainTotal 0.05 then ⟨"trace", "Trace moisture", 1⟩
  else if jltC rainTotal 0.15 then ⟨"spotty", "Spotty showers", 2⟩
  else if jltC rainTotal 0.40 then ⟨"light", "Light rain", 3⟩
  else if jltC rainTotal 0.75 then ⟨"steady", "Steady rain", 4⟩
  else if jltC rainTotal 1.25 then ⟨"soaking", "A soaking rain", 5⟩
  else ⟨"heavy", "Heavy rain", 6⟩

/-- `classifySnow(snowTotal)` from forecast-intel.js. -/
def classifySnow (snowTotal : JNum) : PrecipClass :=
  if jltC snowTotal 0.05 then ⟨"none", "No snow", 0⟩
  else if jltC snowTotal 0.10 then ⟨"flurries", "Flurries", 1⟩
  else if jltC snowTotal 0.5 then ⟨"dusting", "Dusting possible", 2⟩
  else if jltC snowTotal 1.0 then ⟨"light", "Light accumulation", 3⟩
  else if jltC snowTotal 3.0 then ⟨"accumulating", "Accumulating snow", 4⟩
  else if jltC snowTotal 6.0 then ⟨"plowable", "Plowable snow", 5⟩
  else ⟨"significant", "Significant snowfall", 6⟩

/-- `accumulatePrecip(hourly, start, end)`: rain and snow totals through
`safeNum(...) ?? 0`, so invalid samples (including NaN) contribute 0. -/
def accumulatePrecip (h : Hourly) (s e : ℤ) : ℚ × ℚ :=
  (idxRange s e).foldl
    (fun acc i =>
      (acc.1 + ((safeNum h.precipitation i).getD 0),
       acc.2 + ((safeNum h.snowfall i).getD 0)))
    (0, 0)

/-- Result record of `summarizeTemps`. -/
structure TempStats where
  minTemp : Option ℚ
  maxTemp : Option ℚ
  avgTemp : Option ℚ
  count : ℕ
deriving DecidableEq, Repr

/-- `summarizeTemps(hourly, start, end)`: extrema and mean over the valid
temperature samples of the window; all null when there are none. -/
def summarizeTemps (h : Hourly) (s e : ℤ) : TempStats :=
  match (idxRange s e).filterMap (safeNum h.temperature_2m) with
  | [] => ⟨none, none, none, 0⟩
  | t :: ts =>
    ⟨some (ts.foldl min t), some (ts.foldl max t), avgQ (t :: ts), (t :: ts).length⟩

/-- Result record of `summarizeWindGusts`. -/
structure WindStats where
  maxGust : ℚ
deriving DecidableEq, Repr

/-- `summarizeWindGusts(hourly, start, end)`: maximum valid gust, starting
from 0 (absence of wind data means calm, not unknown). -/
def summarizeWindGusts (h : Hourly) (s e : ℤ) : WindStats :=
  ⟨(idxRange s e).foldl
    (fun m i =>
      match safeNum h.windgusts_10m i with
      | some g => if m < g then g else m
      | none => m)
    0⟩

/-- Result record of `summarizeDewAndUV`. -/
structure DewStats where
  maxDew : Option ℚ
  maxUV : ℚ
deriving DecidableEq, Repr

/-- `summarizeDewAndUV(hourly, start, end)`: maximum valid dewpoint (null
when none seen) and maximum valid UV index (0 when none). -/
def summarizeDewAndUV (h : Hourly) (s e : ℤ) : DewStats :=
  let r := (idxRange s e).foldl
    (fun (acc : Option ℚ × ℚ) i =>
      let d1 := match safeNum h.dewpoint_2m i with
        | some d => match acc.1 with
          | some m => some (if m < d then d else m)
          | none => some d
        | none => acc.1
      let u1 := match safeNum h.uv_index i with
        | some u => if acc.2 < u then u else acc.2
        | none => acc.2
      (d1, u1))
    (none, 0)
  ⟨r.1, r.2⟩

/-- `detectConvective(rainArr, start, end)`: raw `?? 0` access, flags an
hour-over-hour precipitation spike ≥ 0.20in and tracks the largest one. -/
def detectConvective (rainArr : List Sample) (s e : ℤ) : Bool × JNum :=
  (idxRange (s + 1) e).foldl
    (fun acc i =>
      let prev := getNumD rainArr (i - 1) 0
      let curr := getNumD rainArr i 0
      let spike := jsub curr prev
      if jgeC spike 0.20 then
        (true, if jltJ acc.2 spike then spike else acc.2)
      else acc)
    (false, JNum.val 0)

/-- `detectStratiform(rainArr, start, end)`: at least 4 window hours with
raw precipitation strictly between 0.01 and 0.10. -/
def detectStratiform (rainArr : List Sample) (s e : ℤ) : Bool :=
  4 ≤ ((idxRange s e).foldl
    (fun n i =>
      let r := getNumD rainArr i 0
      if jgtC r 0.01 && jltC r 0.10 then n + 1 else n)
    (0 : ℕ))

/-- Per-hour cold condition of `detectNWFlowSnow`: valid temperature ≤ 34. -/
def nwCold (h : Hourly) (i : ℤ) : Bool :=
  match safeNum h.temperature_2m i with
  | some t => decide (t ≤ 34)
  | none => false

/-- Per-hour light-snow condition of `detectNWFlowSnow`: valid snowfall in
(0, 0.20). -/
def nwLightSnow (h : Hourly) (i : ℤ) : Bool :=
  match safeNum h.snowfall i with
  | some s => decide (0 < s ∧ s < 0.20)
  | none => false

/-- Per-hour gust condition of `detectNWFlowSnow`: valid gust in [18, 32]. -/
def nwGust (h : Hourly) (i : ℤ) : Bool :=
  match safeNum h.windgusts_10m i with
  | some g => decide (18 ≤ g ∧ g ≤ 32)
  | none => false

/-- `detectNWFlowSnow(hourly, start, end)`: one loop accumulating three
independent booleans (cold enough, light snow, gust pattern), each its own
OR across the window, ANDed at the end. -/
def detectNWFlowSnow (h : Hourly) (s e : ℤ) : Bool :=
  let r := (idxRange s e).foldl
    (fun (acc : Bool × Bool × Bool) i =>
      (acc.1 || nwCold h i, acc.2.1 || nwLightSnow h i, acc.2.2 || nwGust h i))
    (false, false, false)
  r.1 && r.2.1 && r.2.2

/-- Result record of `analyzeQPF`. -/
structure QPF where
  rain : PrecipClass
  snow : PrecipClass
  convective : Bool
  maxSpike : JNum
  stratiform : Bool
  nwFlowSnow : Bool
  rainTotal : JNum
  snowTotal : JNum
deriving DecidableEq, Repr

/-- `analyzeQPF(hourly, start, end)`.  The totals are accumulated with raw
`arr[i] ?? 0` access (not `safeNum`), so a NaN sample makes the whole total
NaN. -/
def analyzeQPF (h : Hourly) (s e : ℤ) : QPF :=
  let totals := (idxRange s e).foldl
    (fun (acc : JNum × JNum) i =>
      (jadd acc.1 (getNumD h.precipitation i 0),
       jadd acc.2 (getNumD h.snowfall i 0)))
    (JNum.val 0, JNum.val 0)
  let conv := detectConvective h.precipitation s e
  { rain := classifyRain totals.1
    snow := classifySnow totals.2
    convective := conv.1
    maxSpike := conv.2
    stratiform := detectStratiform h.precipitation s e
    nwFlowSnow := detectNWFlowSnow h s e
    rainTotal := totals.1
    snowTotal := totals.2 }

/-- `computeWetBulb(tempF, dewF)` from forecast-intel.js. -/
def computeWetBulb (tempF dewF : Option ℚ) : Option ℚ :=
  match tempF, dewF with
  | some t, some d =>
    let spread := t - d
    if spread ≤ 2 then some (t - 0.5)
    else if 15 ≤ spread then some (t - 8)
    else some (t - spread * 0.5)
  | _, _ => none

/-- `classifyHourlyPrecipType(tempF, dewF, snowIn)` from forecast-intel.js. -/
def classifyHourlyPrecipType (tempF dewF snowIn : Option ℚ) : String :=
  if (match snowIn with | some s => decide (0.05 < s) | none => false) then "snow"
  else
    match computeWetBulb tempF dewF with
    | none => "unknown"
    | some tw =>
      if tw ≤ 31.5 then "snow"
      else if tw ≤ 33.0 then "mix"
      else "rain"

/-- `detectCAD(hourly, start, end)`: one loop accumulating falling-temp,
rising-dew and CAD-wind booleans, ANDed at the end. -/
def detectCAD (h : Hourly) (s e : ℤ) : Bool :=
  let r := (idxRange (s + 1) e).foldl
    (fun (acc : Bool × Bool × Bool) i =>
      let tPrev := safeNum h.temperature_2m (i - 1)
      let tCurr := safeNum h.temperature_2m i
      let dPrev := safeNum h.dewpoint_2m (i - 1)
      let dCurr := safeNum h.dewpoint_2m i
      let g := safeNum h.windgusts_10m i
      (acc.1 || (match tPrev, tCurr with
        | some a, some b => decide (b < a)
        | _, _ => false),
       acc.2.1 || (match dPrev, dCurr with
        | some a, some b => decide (a < b)
        | _, _ => false),
       acc.2.2 || (match g with
        | some g0 => decide (10 ≤ g0 ∧ g0 ≤ 25)
        | none => false)))
    (false, false, false)
  r.1 && r.2.1 && r.2.2

/-- `detectFreezingDrizzle(hourly, start, end)`: some hour with valid
temperature in [28, 32], precipitation in (0, 0.05) and spread ≤ 4. -/
def detectFreezingDrizzle (h : Hourly) (s e : ℤ) : Bool :=
  (idxRange s e).foldl
    (fun acc i =>
      acc ||
      (match safeNum h.temperature_2m i, safeNum h.dewpoint_2m i,
             safeNum h.precipitation i with
       | some t, some d, some r =>
         decide (28 ≤ t ∧ t ≤ 32 ∧ 0 < r ∧ r < 0.05 ∧ t - d ≤ 4)
       | _, _, _ => false))
    false

/-- Accumulator of `analyzeThermalProfile`'s loop. -/
structure ThermalAcc where
  minT : Option ℚ
  maxT : Option ℚ
  wbMin : Option ℚ
  wbMax : Option ℚ
  rainCount : ℕ
  snowCount : ℕ
  mixCount : ℕ
deriving Repr

/-- Result record of `analyzeThermalProfile`. -/
structure Thermal where
  precipType : String
  freezingDrizzle : Bool
  cad : Bool
  minTemp : Option ℚ
  maxTemp : Option ℚ
  wetBulbMin : Option ℚ
  wetBulbMax : Option ℚ
deriving DecidableEq, Repr

/-- `analyzeThermalProfile(hourly, start, end)` from forecast-intel.js. -/
def analyzeThermalProfile (h : Hourly) (s e : ℤ) : Thermal :=
  let acc := (idxRange s e).foldl
    (fun (a : ThermalAcc) i =>
      let t := safeNum h.temperature_2m i
      let d := safeNum h.dewpoint_2m i
      let sn := safeNum h.snowfall i
      let a1 := match t with
        | some t0 =>
          { a with
            minT := some (match a.minT with | some m => min m t0 | none => t0)
            maxT := some (match a.maxT with | some m => max m t0 | none => t0) }
        | none => a
      let a2 := match computeWetBulb t d with
        | some tw =>
          { a1 with
            wbMin := some (match a1.wbMin with | some m => min m tw | none => tw)
            wbMax := some (match a1.wbMax with | some m => max m tw | none => tw) }
        | none => a1
      let ty := classifyHourlyPrecipType t d sn
      { a2 with
        rainCount := a2.rainCount + (if ty = "rain" then 1 else 0)
        snowCount := a2.snowCount + (if ty = "snow" then 1 else 0)
        mixCount := a2.mixCount + (if ty = "mix" then 1 else 0) })
    ⟨none, none, none, none, 0, 0, 0⟩
  let precipType :=
    if 0 < acc.snowCount ∧ acc.rainCount = 0 then "snow"
    else if 0 < acc.rainCount ∧ acc.snowCount = 0 then "rain"
    else if 0 < acc.mixCount ∨ (0 < acc.rainCount ∧ 0 < acc.snowCount) then "mix"
    else "none"
  { precipType := precipType
    freezingDrizzle := detectFreezingDrizzle h s e
    cad := detectCAD h s e
    minTemp := acc.minT
    maxTemp := acc.maxT
    wetBulbMin := acc.wbMin
    wetBulbMax := acc.wbMax }

/-- Result record of `detectMicroclimates`. -/
structure Micro where
  nwFlowSnow : Bool
  cad : Bool
  ridgeWinds : Bool
  layersDay : Bool
deriving DecidableEq, Repr

/-- Per-hour NW-flow condition of `detectMicroclimates`: raw values with
defaults dir 0, temp 40, snow 0; dir in [290, 330], temp ≤ 36, snow > 0.05,
all in the same hour. -/
def microNWCond (h : Hourly) (i : ℤ) : Bool :=
  let dir := getNumD h.winddirection_10m i 0
  let t := getNumD h.temperature_2m i 40
  let s := getNumD h.snowfall i 0
  jgeC dir 290 && jleC dir 330 && jleC t 36 && jgtC s 0.05

/-- Per-hour CAD condition of `detectMicroclimates`: raw values with
defaults dir 0, temp 50, dew 40; dir in [20, 80], temp ≤ 45, |t - d| < 3. -/
def microCADCond (h : Hourly) (i : ℤ) : Bool :=
  let dir := getNumD h.winddirection_10m i 0
  let t := getNumD h.temperature_2m i 50
  let d := getNumD h.dewpoint_2m i 40
  jgeC dir 20 && jleC dir 80 && jleC t 45 && jltC (jabs (jsub t d)) 3

/-- The layers-day scan of `detectMicroclimates`: JS `slice` then
`filter(t => t != null)`, which keeps NaN samples; `Math.min` / `Math.max`
over the kept values, spread ≥ 22 (false on NaN). -/
def microLayersDay (h : Hourly) (s e : ℤ) : Bool :=
  let sliceTemps := (jsSlice h.temperature_2m s e).filterMap
    (fun c => match c with
      | Sample.missing => none
      | Sample.nan => some JNum.nan
      | Sample.num q => some (JNum.val q))
  match sliceTemps with
  | [] => false
  | t :: ts => jgeC (jsub (ts.foldl jmaxJ t) (ts.foldl jminJ t)) 22

/-- `detectMicroclimates(hourly, start, end)` from forecast-intel.js: four
independent scans (NW-flow snow, CAD, ridge winds, layers day). -/
def detectMicroclimates (h : Hourly) (s e : ℤ) : Micro :=
  { nwFlowSnow := (idxRange s e).foldl (fun acc i => acc || microNWCond h i) false
    cad := (idxRange s e).foldl (fun acc i => acc || microCADCond h i) false
    ridgeWinds := (idxRange s e).foldl
      (fun acc i => acc || jgeC (getNumD h.windgusts_10m i 0) 35) false
    layersDay := microLayersDay h s e }

/-- JS comparison of a possibly-null number against a constant: null
coerces to 0.  (These fields are set to literal null, never undefined.) -/
def jsN (x : Option ℚ) : ℚ :=
  x.getD 0

/-- `detectGoldilocks(qpf, thermal, wind, dew, micro)` from
forecast-intel.js.  `maxTemp`, `minTemp` and `maxDew` can be null, which JS
coerces to 0 in the comparisons. -/
def detectGoldilocks (qpf : QPF) (thermal : Thermal) (wind : WindStats)
    (dew : DewStats) (micro : Micro) : Option String :=
  let maxTemp := jsN thermal.maxTemp
  let minTemp := jsN thermal.minTemp
  let maxDew := jsN dew.maxDew
  let perfectTemp := decide (68 ≤ maxTemp ∧ maxTemp ≤ 74)
  let perfectDew := decide (45 ≤ maxDew ∧ maxDew ≤ 52)
  let calmWind := decide (wind.maxGust < 20)
  let dry := jltC qpf.rainTotal 0.05 && jltC qpf.snowTotal 0.05
  let lowUV := decide (dew.maxUV < 6)
  if perfectTemp && perfectDew && calmWind && dry && lowUV then some "full"
  else if perfectTemp && dry && decide (wind.maxGust < 25) && decide (minTemp < 45) then
    some "afternoon"
  else if perfectTemp && dry && micro.ridgeWinds then some "valleys"
  else if perfectTemp && decide (60 < maxDew) then some "earlyMuggyLate"
  else none

/-- `buildGoldilocksHeadline(type)` from forecast-intel.js. -/
def buildGoldilocksHeadline : Option String → Option String
  | some "full" => some "✨ Goldilocks Day!"
  | some "afternoon" => some "✨ Goldilocks Afternoon!"
  | some "valleys" => some "✨ Goldilocks in the Valleys!"
  | some "earlyMuggyLate" => some "✨ Goldilocks Early, Muggy Late!"
  | _ => none

/-- The flags block of `getHumanActionOutlook` (identical in
forecast-intel.js and part_000). -/
structure Flags where
  goldilocks : Bool
  stormy : Bool
  rainy : Bool
  mixed : Bool
  snowy : Bool
  windy : Bool
  hot : Bool
  cold : Bool
  dry : Bool
deriving DecidableEq, Repr

/-- The flags computed by `getHumanActionOutlook` over an analyzed window.
`mixed` reads `qpf.precipType`, but `analyzeQPF`'s result has no
`precipType` field (it lives on the thermal profile), so the JS comparison
`undefined === "mix"` is always false.  `cold` compares a possibly-null
`minTemp` with ≤ 35: JS coerces null to 0, making it true on missing
temperature data. -/
def outlookFlags (h : Hourly) (s e : ℤ) : Flags :=
  let qpf := analyzeQPF h s e
  let thermal := analyzeThermalProfile h s e
  let wind := summarizeWindGusts h s e
  let dew := summarizeDewAndUV h s e
  let micro := detectMicroclimates h s e
  let goldilocksType := detectGoldilocks qpf thermal wind dew micro
  { goldilocks := goldilocksType.isSome
    stormy := qpf.convective || decide (5 ≤ qpf.rain.severity)
    rainy := decide (3 ≤ qpf.rain.severity) && decide (qpf.rain.severity < 5)
    mixed := false
    snowy := decide (2 ≤ qpf.snow.severity)
    windy := decide (30 ≤ wind.maxGust)
    hot := decide (85 ≤ jsN thermal.maxTemp)
    cold := decide (jsN thermal.minTemp ≤ 35)
    dry := jltC qpf.rainTotal 0.02 && jltC qpf.snowTotal 0.02 }

/-- `getActionIcon(flags)` from forecast-intel.js. -/
def getActionIcon (f : Flags) : String :=
  if f.goldilocks then "✨"
  else if f.stormy then "⛈️"
  else if f.rainy then "🌧️"
  else if f.mixed then "🌦️"
  else if f.snowy then "🌨️"
  else if f.windy then "💨"
  else if f.hot then "🔥"
  else if f.cold then "❄️"
  else if f.dry then "🌤️"
  else "🌡️"

/-- Badge record of forecast-intel.js (`cls` stands for the JS field
`class`, a reserved word in Lean). -/
structure Badge where
  text : String
  cls : String
deriving DecidableEq, Repr

/-- `getActionBadge(flags)` from forecast-intel.js: top-to-bottom priority
goldilocks, stormy, rainy, mixed, snowy, windy, hot, cold, dry. -/
def getActionBadge (f : Flags) : Badge :=
  if f.goldilocks then ⟨"Goldilocks", "badge-goldilocks"⟩
  else if f.stormy then ⟨"Stormy", "badge-stormy"⟩
  else if f.rainy then ⟨"Rainy", "badge-rainy"⟩
  else if f.mixed then ⟨"Mixed", "badge-mixed"⟩
  else if f.snowy then ⟨"Snowy", "badge-snowy"⟩
  else if f.windy then ⟨"Windy", "badge-windy"⟩
  else if f.hot then ⟨"Hot", "badge-hot"⟩
  else if f.cold then ⟨"Cold", "badge-cold"⟩
  else if f.dry then ⟨"Dry", "badge-dry"⟩
  else ⟨"Outlook", "badge-neutral"⟩

/-- Badge record of part_000 (text + color). -/
structure BadgeB where
  text : String
  color : String
deriving DecidableEq, Repr

/-- `getActionIcon(flags)` from part_000: snowy checked first. -/
def getActionIconB (f : Flags) : String :=
  if f.snowy then "❄️"
  else if f.mixed then "🌨️"
  else if f.rainy then "🌧️"
  else if f.stormy then "⛈️"
  else if f.windy then "💨"
  else if f.hot then "🔥"
  else if f.cold then "🥶"
  else if f.goldilocks then "🌤️"
  else "🌡️"

/-- `getActionBadge(flags)` from part_000: top-to-bottom priority snowy,
mixed, rainy, stormy, windy, hot, cold, goldilocks. -/
def getActionBadgeB (f : Flags) : BadgeB :=
  if f.snowy then ⟨"Snowy", "#7bb4ff"⟩
  else if f.mixed then ⟨"Wintry Mix", "#9bb0ff"⟩
  else if f.rainy then ⟨"Rainy", "#6fa8ff"⟩
  else if f.stormy then ⟨"Stormy", "#ff8b5c"⟩
  else if f.windy then ⟨"Windy", "#b0d4ff"⟩
  else if f.hot then ⟨"Hot", "#ffb36b"⟩
  else if f.cold then ⟨"Cold", "#9ed0ff"⟩
  else if f.goldilocks then ⟨"Goldilocks", "#ffe28a"⟩
  else ⟨"Typical", "#ddd"⟩

/-- `getCalendarDayWindow(hourly, targetDate)` from forecast-intel.js.
The JS function formats the target date as YYYY-MM-DD and compares it with
the first 10 characters of each timestamp; the embedding takes the
formatted string as a parameter. -/
def getCalendarDayWindow (h : Hourly) (targetStr : String) : ℤ × ℤ :=
  if h.time.isEmpty then (0, 0)
  else
    let r := (List.range h.time.length).foldl
      (fun (acc : Option (ℤ × ℤ)) i =>
        if (h.time.getD i "").take 10 = targetStr then
          match acc with
          | none => some ((i : ℤ), (i : ℤ) + 1)
          | some (st, _) => some (st, (i : ℤ) + 1)
        else acc)
      none
    match r with
    | none => (0, 0)
    | some w => w

/-- `getTomorrowWindow(hourly)` from forecast-intel.js, with tomorrow's
formatted date as a parameter (the JS function reads the wall clock).
Falls back to roughly hours 24-48 when tomorrow is absent. -/
def getTomorrowWindow (h : Hourly) (tomorrowStr : String) : ℤ × ℤ :=
  let w := getCalendarDayWindow h tomorrowStr
  if w.1 = 0 ∧ w.2 = 0 then
    let len : ℤ := h.time.length
    (min 24 (max 0 (len - 24)), min 48 len)
  else w

/-- `getRelativeWindow(hourly, offsetStartHours, offsetEndHours)` from
forecast-intel.js. -/
def getRelativeWindow (h : Hourly) (a b : ℤ) : ℤ × ℤ :=
  let len : ℤ := h.time.length
  let s := clampZ a 0 len
  let e := clampZ b 0 len
  (s, max s e)

/-- The emoji, badge and headline of `getHumanActionOutlook` from
forecast-intel.js.  The text field (summary and action sentences, which
interpolate `toFixed`-formatted magnitudes) is presentation-only and not
modelled. -/
def getHumanActionOutlookMain (h : Hourly) (tomorrowStr : String) :
    String × Badge × Option String :=
  let w := getTomorrowWindow h tomorrowStr
  let f := outlookFlags h w.1 w.2
  let qpf := analyzeQPF h w.1 w.2
  let thermal := analyzeThermalProfile h w.1 w.2
  let wind := summarizeWindGusts h w.1 w.2
  let dew := summarizeDewAndUV h w.1 w.2
  let micro := detectMicroclimates h w.1 w.2
  (getActionIcon f, getActionBadge f,
   buildGoldilocksHeadline (detectGoldilocks qpf thermal wind dew micro))

/-- Monthly normal highs of part_001 (`NORMAL_HIGHS`). -/
def NORMAL_HIGHS (m : Fin 12) : ℚ :=
  [47, 51, 59, 68, 75, 82, 85, 84, 78, 69, 59, 50].getD m.val 0

/-- Monthly normal lows of part_001 (`NORMAL_LOWS`). -/
def NORMAL_LOWS (m : Fin 12) : ℚ :=
  [28, 31, 36, 43, 52, 60, 64, 63, 57, 46, 37, 31].getD m.val 0

/-- `monthName(i)` from part_001. -/
def monthName (m : Fin 12) : String :=
  ["January", "February", "March", "April", "May", "June",
   "July", "August", "September", "October", "November", "December"].getD m.val ""

/-- `getPersonalityPhrase(feel, nuance)` from part_001. -/
def getPersonalityPhrase (feel nuance : String) : String :=
  if feel = "biting" then
    if nuance = "windy" then
      "Biting cold — the kind that wakes you up whether you want it to or not"
    else "Biting cold — bundle up, friend"
  else if feel = "cold" then
    if nuance = "breezy" then
      "Cold with a side of breeze — nature’s way of saying ‘layer up, friend.’"
    else if nuance = "crisp" then "Cold and crisp — classic mountain morning chill"
    else "Cold — definitely jacket weather"
  else if feel = "chilly" then
    "Chilly but manageable — jacket weather, not misery weather"
  else if feel = "cool" then
    if nuance = "breezy" then "Cool and breezy — a light jacket and a good attitude"
    else if nuance = "crisp" then "Cool and crisp — clean, refreshing, no nonsense"
    else if nuance = "humid" then "Cool but muggy — a strange combo, but here we are"
    else "Cool — refreshing and easygoing"
  else if feel = "mild" then
    if nuance = "breezy" then "Mild with a breeze — windows‑down weather"
    else if nuance = "humid" then "Mild but muggy — a little clingy, but still friendly"
    else "Mild and calm — easygoing, like Asheville on a Sunday"
  else if feel = "warm" then
    if nuance = "breezy" then "Warm with a breeze — nature’s version of air‑conditioning"
    else if nuance = "humid" then "Yuck! Air you can wear"
    else "Warm and pleasant — Asheville at its friendliest"
  else if feel = "hot" then
    if nuance = "humid" then "Tropical jungle heat — welcome to the steam room"
    else if nuance = "breezy" then "Hot with a breeze — still hot, but at least it’s trying"
    else "Hot and dry — sun‑baked and sharp"
  else "Comfort unknown"

/-- `comfortEmoji(feel)` from part_001. -/
def comfortEmoji (feel : String) : String :=
  if feel = "biting" then "🥶"
  else if feel = "cold" then "❄️"
  else if feel = "chilly" then "🧥"
  else if feel = "cool" then "🍃"
  else if feel = "mild" then "🙂"
  else if feel = "warm" then "🌤️"
  else if feel = "hot" then "🔥"
  else "🌡️"

/-- Result record of part_001's `getComfortCategory`. -/
structure ComfortResult where
  text : String
  emoji : String
deriving DecidableEq, Repr

/-- `getComfortCategory(temp, dew, gust, precip)` from part_001 (Comfort
Module 2.3).  The JS function reads the wall clock for the current hour and
month; the embedding takes them as parameters. -/
def getComfortCategoryB (temp dew gust precip : ℚ) (hour : ℕ) (month : Fin 12) :
    ComfortResult :=
  let isGoldilocks := decide (68 ≤ temp ∧ temp ≤ 74 ∧ 45 ≤ dew ∧ dew ≤ 52 ∧
    gust < 15 ∧ precip < 0.02)
  if isGoldilocks then ⟨"Goldilocks — just right.", "🌟"⟩
  else
    let feel :=
      if temp ≤ 25 then "biting"
      else if temp ≤ 40 then "cold"
      else if temp ≤ 48 then "chilly"
      else if temp ≤ 58 then "cool"
      else if temp ≤ 70 then "mild"
      else if temp ≤ 82 then "warm"
      else "hot"
    let nuance0 := if 65 ≤ dew then "humid" else if dew < 40 then "crisp" else ""
    let nuance := if 30 ≤ gust then "windy" else if 20 ≤ gust then "breezy" else nuance0
    let personality := getPersonalityPhrase feel nuance
    let normal := if hour < 11 ∨ 18 ≤ hour then NORMAL_LOWS month else NORMAL_HIGHS month
    let diff := temp - normal
    if 10 < |diff| then
      let seasonal :=
        if 10 < diff then "unusually warm for " ++ monthName month
        else "much colder than normal for " ++ monthName month
      ⟨personality ++ " — " ++ seasonal, comfortEmoji feel⟩
    else ⟨personality, comfortEmoji feel⟩

/-- `describePrecip(precipTotal, snowTotal)` from part_001. -/
def describePrecip (precipTotal snowTotal : ℚ) : String :=
  if 0.05 < snowTotal then
    if 2 ≤ snowTotal then "notable snow"
    else if 0.5 ≤ snowTotal then "light accumulating snow"
    else "flurries or very light snow"
  else if precipTotal < 0.02 then "mainly dry"
  else if precipTotal < 0.10 then "a few light showers"
  else if precipTotal < 0.25 then "on-and-off showers"
  else if precipTotal < 0.75 then "a soaking rain at times"
  else "periods of heavy rain"

/-- `describeWind(gustMax)` from part_001. -/
def describeWind (gustMax : ℚ) : String :=
  if 40 ≤ gustMax then "very windy"
  else if 30 ≤ gustMax then "quite gusty"
  else if 20 ≤ gustMax then "breezy at times"
  else if 10 ≤ gustMax then "a light breeze"
  else "generally light wind"

/-- Stats record of part_001's aggregation helpers. -/
structure MinMaxAvg where
  min : Option ℚ
  max : Option ℚ
  avg : Option ℚ
deriving DecidableEq, Repr

/-- The valid (plain numeric) samples of an array. -/
def validNums (arr : List Sample) : List ℚ :=
  arr.filterMap (fun c => match c with
    | Sample.num q => some q
    | _ => none)

/-- Min, max and mean of a list of numbers, all null when it is empty. -/
def mkStats (l : List ℚ) : MinMaxAvg :=
  match l with
  | [] => ⟨none, none, none⟩
  | t :: ts => ⟨some (ts.foldl min t), some (ts.foldl max t), avgQ (t :: ts)⟩

/-- Modelled from the spec: `getTempStats`, called by part_001's outlook, is
defined in a repository file that is not under src/.  Per §4.2, temperature
statistics are computed only over hours with a valid numeric temperature
and are all null when there are none. -/
def getTempStats (w : Hourly) : MinMaxAvg :=
  mkStats (validNums w.temperature_2m)

/-- Modelled from the spec: `getDewStats`, called by part_001's outlook, is
defined in a repository file that is not under src/.  Per §4.2, computed
over valid dewpoint samples, null when none. -/
def getDewStats (w : Hourly) : MinMaxAvg :=
  mkStats (validNums w.dewpoint_2m)

/-- Modelled from the spec: `getWindGustStats`, called by part_001's
outlook, is defined in a repository file that is not under src/.  Its `max`
field is read through `?? 0` by the caller, matching §4.2's
gust-defaults-to-0 rule. -/
def getWindGustStats (w : Hourly) : MinMaxAvg :=
  mkStats (validNums w.windgusts_10m)

/-- Modelled from the spec: `getPrecipTotal`, called by part_001's outlook,
is defined in a repository file that is not under src/.  Per §4.2, the
precipitation total treats absent samples as 0. -/
def getPrecipTotal (w : Hourly) : ℚ :=
  (validNums w.precipitation).foldl (· + ·) 0

/-- Modelled from the spec: `getSnowTotal`, called by part_001's outlook,
is defined in a repository file that is not under src/.  Per §4.2, the
snowfall total treats absent samples as 0. -/
def getSnowTotal (w : Hourly) : ℚ :=
  (validNums w.snowfall).foldl (· + ·) 0

/-- `getHourlyWindowForDay` / `getTomorrowWindow` from part_001: the
indices whose timestamp falls inside tomorrow's local day.  The JS code
compares `new Date(times[i])` against the day bounds derived from the wall
clock; the embedding takes that per-timestamp test as a parameter. -/
def getTomorrowWindowB (h : Hourly) (inTomorrow : String → Bool) : List ℕ :=
  (List.range h.time.length).filter (fun i => inTomorrow (h.time.getD i ""))

/-- `sliceHourly(hourly, indices)` from part_001: project every parallel
array onto the given indices (out-of-range reads give undefined, modelled
as a missing sample / empty timestamp). -/
def sliceHourly (h : Hourly) (indices : List ℕ) : Hourly :=
  { time := indices.map (fun i => h.time.getD i "")
    temperature_2m := indices.map (fun i => jsIndex h.temperature_2m i)
    dewpoint_2m := indices.map (fun i => jsIndex h.dewpoint_2m i)
    precipitation := indices.map (fun i => jsIndex h.precipitation i)
    snowfall := indices.map (fun i => jsIndex h.snowfall i)
    windgusts_10m := indices.map (fun i => jsIndex h.windgusts_10m i)
    winddirection_10m := indices.map (fun i => jsIndex h.winddirection_10m i)
    uv_index := indices.map (fun i => jsIndex h.uv_index i) }

/-- Result record of part_001's `getHumanActionOutlook`. -/
structure OutlookB where
  badge : Badge
  emoji : String
  headline : String
  text : String
deriving DecidableEq, Repr

/-- `getHumanActionOutlook(hourly)` from part_001 (Option A style): returns
the designated no-data result for an empty tomorrow window, otherwise a
badge chosen by sequential reassignment (last matching override wins). -/
def getHumanActionOutlookB (h : Hourly) (inTomorrow : String → Bool)
    (hour : ℕ) (month : Fin 12) : OutlookB :=
  let indices := getTomorrowWindowB h inTomorrow
  if indices.isEmpty then
    ⟨⟨"No data", "badge-neutral"⟩, "❓", "Tomorrow’s outlook is unavailable",
     "We couldn’t find a usable forecast window for tomorrow."⟩
  else
    let win := sliceHourly h indices
    let tempStats := getTempStats win
    let dewStats := getDewStats win
    let windStats := getWindGustStats win
    let precipTotal := getPrecipTotal win
    let snowTotal := getSnowTotal win
    let avgTemp := tempStats.avg <|> tempStats.max <|> tempStats.min
    let avgDew := (dewStats.avg <|> avgTemp).getD 50
    let gustMax := windStats.max.getD 0
    let comfort := match avgTemp with
      | some t => getComfortCategoryB t avgDew gustMax precipTotal hour month
      | none => ⟨"Comfort unknown", "❓"⟩
    let precipDesc := describePrecip precipTotal snowTotal
    let windDesc := describeWind gustMax
    let tempDesc :=
      if tempStats.min.isNone ∨ tempStats.max.isNone then
        "temperature details unavailable"
      else match tempStats.max with
        | some mx =>
          if mx ≤ 40 then "a cold day overall"
          else if mx ≤ 55 then "a cool day overall"
          else if mx ≤ 72 then "a mild day overall"
          else if mx ≤ 82 then "a warm day overall"
          else "a hot day overall"
        | none => "temperature details unavailable"
    let isGoldilocks := comfort.text.startsWith "Goldilocks"
    let s0 : Badge × String × String × String :=
      (⟨"Easy Day", "badge-easy"⟩, "🙂", "A fairly straightforward day ahead.",
       tempDesc ++ ". Expect " ++ precipDesc ++ " with " ++ windDesc ++ ". " ++
         comfort.text)
    let s1 := if isGoldilocks then
        (⟨"Goldilocks Day", "badge-goldilocks"⟩, "🌟",
         "Just right — a Goldilocks kind of day.",
         (comfort.text ++ " " ++
           (if precipDesc ≠ "mainly dry" then "Also, " ++ precipDesc ++ "." else "")).trim)
      else s0
    let s2 := if !isGoldilocks && decide (0.25 ≤ precipTotal) && decide (snowTotal = 0) then
        (⟨"Rain Gear", "badge-rain"⟩, "🌧️", "Have rain gear handy tomorrow.",
         precipDesc ++ ". " ++ windDesc ++ ". " ++ comfort.text)
      else s1
    let s3 := if !isGoldilocks && decide (0.05 < snowTotal) then
        (⟨"Snow Impact", "badge-snow"⟩, "❄️", "Snow may impact your plans.",
         precipDesc ++ ". " ++ windDesc ++ ". " ++ comfort.text)
      else s2
    let s4 := if !isGoldilocks && decide (30 ≤ gustMax) then
        (⟨"Wind Alert", "badge-wind"⟩, "💨", "It will be quite windy at times.",
         windDesc ++ ". " ++ precipDesc ++ ". " ++ comfort.text)
      else s3
    let s5 := if !isGoldilocks && decide (precipTotal < 0.10) && decide (snowTotal = 0) &&
        decide (gustMax < 20) &&
        (match avgTemp with
         | some t => decide (55 ≤ t ∧ t ≤ 78)
         | none => false) then
        (⟨"Easy Outdoor Day", "badge-easy"⟩, "🌤️", "A great day to be outside.",
         tempDesc ++ ". " ++ comfort.text)
      else s4
    ⟨s5.1, s5.2.1, s5.2.2.1, s5.2.2.2⟩

/-- Alert record of forecast-intel.js's `getForecastAlerts`.  The detail
sentence (which interpolates magnitudes and a locale/Date-dependent timing
phrase) is presentation-only and not modelled. -/
structure Alert where
  id : String
  icon : String
  title : String
deriving DecidableEq, Repr

/-- A conditional one-element list: `if (cond) alerts.push(a)`. -/
def chunk (b : Bool) (a : Alert) : List Alert :=
  if b then [a] else []

/-- The push sequence of `getForecastAlerts`, with the condition of each
push (and the two data-dependent titles) abstracted.  The wind pair is an
if / else-if, so at most one of the two wind alerts is pushed. -/
def alertsCore (snowTitle rainTitle : String)
    (snowB nwB fzB rainB tsB w40 w30 heatB coldB uvB : Bool) : List Alert :=
  chunk snowB ⟨"snow", "❄️", snowTitle⟩ ++
  chunk nwB ⟨"nwflow", "🌨️", "NW‑flow snow showers"⟩ ++
  chunk fzB ⟨"fzdrizzle", "🧊", "Freezing drizzle possible"⟩ ++
  chunk rainB ⟨"rain", "🌧️", rainTitle⟩ ++
  chunk tsB ⟨"tstorms", "⛈️", "Downpours or thunderstorms"⟩ ++
  (if w40 then [⟨"strongwind", "🌬️", "Strong winds"⟩]
   else if w30 then [⟨"gusty", "💨", "Gusty conditions"⟩]
   else []) ++
  chunk heatB ⟨"heat", "🥵", "Hot and humid"⟩ ++
  chunk coldB ⟨"cold", "🥶", "Bitter cold"⟩ ++
  chunk uvB ⟨"uv", "🌞", "High UV index"⟩

/-- A conditional one-element id list, mirroring `chunk`. -/
def chunkS (b : Bool) (x : String) : List String :=
  if b then [x] else []

/-- The ids of `alertsCore`, as a function of the push conditions alone. -/
def idsCore (snowB nwB fzB rainB tsB w40 w30 heatB coldB uvB : Bool) : List String :=
  chunkS snowB "snow" ++
  chunkS nwB "nwflow" ++
  chunkS fzB "fzdrizzle" ++
  chunkS rainB "rain" ++
  chunkS tsB "tstorms" ++
  (if w40 then ["strongwind"] else if w30 then ["gusty"] else []) ++
  chunkS heatB "heat" ++
  chunkS coldB "cold" ++
  chunkS uvB "uv"

/-- `getForecastAlerts(hourly)` from forecast-intel.js: a 12-48-hour-ahead
window (note `start = min(12, len - 1)`, which is -1 for an empty series;
all loops then see only invalid indices).  Each alert condition is checked
once, in a fixed order. -/
def getForecastAlerts (h : Hourly) : List Alert :=
  let len : ℤ := h.time.length
  let s := min 12 (len - 1)
  let e := min 48 len
  let qpf := analyzeQPF h s e
  let thermal := analyzeThermalProfile h s e
  let wind := summarizeWindGusts h s e
  let dew := summarizeDewAndUV h s e
  let maxUV := dew.maxUV
  alertsCore qpf.snow.label qpf.rain.label
    (decide (3 ≤ qpf.snow.severity))
    (qpf.nwFlowSnow && decide (qpf.snow.severity ≤ 2))
    thermal.freezingDrizzle
    (decide (4 ≤ qpf.rain.severity))
    qpf.convective
    (decide (40 ≤ wind.maxGust))
    (decide (30 ≤ wind.maxGust))
    ((match thermal.maxTemp with
      | some t => decide (88 ≤ t)
      | none => false) && decide (68 ≤ jsN dew.maxDew))
    (match thermal.minTemp with
      | some t => decide (t ≤ 15)
      | none => false)
    (decide (7 ≤ maxUV) && jltC qpf.rainTotal 0.05)

/-- The empty hourly series: no timestamps, no measurements. -/
def emptyH : Hourly :=
  ⟨[], [], [], [], [], [], [], []⟩

/-- One hour whose precipitation sample is NaN. -/
def nanH : Hourly :=
  ⟨["2026-01-15T00:00"], [], [], [Sample.nan], [], [], [], []⟩

/-- Ten hours of 2026-01-15 with 0.02in rain and 0.06in snow per hour:
rain total 0.20 (severity 3) and snow total 0.60 (severity 3) co-occur. -/
def rainSnowH : Hourly :=
  ⟨List.replicate 10 "2026-01-15T00:00",
   [], [],
   List.replicate 10 (Sample.num 0.02),
   List.replicate 10 (Sample.num 0.06),
   [], [], []⟩

/-- Ten hours of 2026-01-15 with 0.15in snow per hour and no rain:
snow total 1.5 (severity 4), rain total 0. -/
def snowOnlyH : Hourly :=
  ⟨List.replicate 10 "2026-01-15T00:00",
   [], [], [],
   List.replicate 10 (Sample.num 0.15),
   [], [], []⟩

/-- Three hours in which the three NW-flow conditions of the claim hold in
three different hours: hour 0 has wind direction 300 (but temp 40, no
snow), hour 1 has temperature 30 (direction 0), hour 2 has snowfall 0.10
(direction 0, temp 40). -/
def splitNWH : Hourly :=
  ⟨["t0", "t1", "t2"],
   [Sample.num 40, Sample.num 30, Sample.num 40],
   [],
   [],
   [Sample.num 0, Sample.num 0, Sample.num 0.10],
   [],
   [Sample.num 300, Sample.num 0, Sample.num 0],
   []⟩

/-- A 24-hour series (only the length matters for window clamping). -/
def len24H : Hourly :=
  ⟨List.replicate 24 "t", [], [], [], [], [], [], []⟩

/-- A 13-hour series whose only gust sample, 45mph at index 12, falls in
the alert window [12, 13). -/
def gustyH : Hourly :=
  ⟨List.replicate 13 "t", [], [], [], [],
   List.replicate 12 Sample.missing ++ [Sample.num 45],
   [], []⟩

/-- Eight ideal hours: temperature 70, dewpoint 48, gusts 10, no
precipitation, no UV data. -/
def goldH : Hourly :=
  ⟨List.replicate 8 "t",
   List.replicate 8 (Sample.num 70),
   List.replicate 8 (Sample.num 48),
   List.replicate 8 (Sample.num 0),
   [],
   List.replicate 8 (Sample.num 10),
   [], []⟩

/-- The lower breakpoints of the seven rain buckets. -/
def rainLo : ℕ → ℚ
  | 0 => 0
  | 1 => 0.01
  | 2 => 0.05
  | 3 => 0.15
  | 4 => 0.40
  | 5 => 0.75
  | _ => 1.25

/-- The lower breakpoints of the seven snow buckets. -/
def snowLo : ℕ → ℚ
  | 0 => 0
  | 1 => 0.05
  | 2 => 0.10
  | 3 => 0.5
  | 4 => 1.0
  | 5 => 3.0
  | _ => 6.0

/-- A loop that only ORs a per-index condition into its accumulator
computes the OR of the initial value with "some index satisfies it". -/
lemma foldl_or_eq (p : ℤ → Bool) :
    ∀ (l : List ℤ) (b : Bool),
      l.foldl (fun acc i => acc || p i) b = (b || l.any p) := by
  intro l
  induction l with
  | nil => simp
  | cons x xs ih => intro b; simp [ih, Bool.or_assoc]

/-- A loop accumulating three independent OR-flags computes, for each flag,
the OR of its initial value with "some index satisfies it". -/
lemma foldl_triple_or (p q r : ℤ → Bool) :
    ∀ (l : List ℤ) (a b c : Bool),
      l.foldl (fun acc i => (acc.1 || p i, acc.2.1 || q i, acc.2.2 || r i)) (a, b, c)
        = (a || l.any p, b || l.any q, c || l.any r) := by
  intro l
  induction l with
  | nil => simp
  | cons x xs ih => intro a b c; simp [ih, Bool.or_assoc]

/-- C2: classifyRain maps totals below 0.01 to severity 0 "none", then
below 0.05 to 1 "trace", 0.15 to 2 "spotty", 0.40 to 3 "light", 0.75 to 4
"steady", 1.25 to 5 "soaking", and everything else to 6 "heavy";
classifySnow analogously maps totals below 0.05 / 0.10 / 0.5 / 1.0 / 3.0 /
6.0 to severities 0-5 ("none", "flurries", "dusting", "light",
"accumulating", "plowable") and everything else to 6 "significant", with
inclusive-low / exclusive-high bucket boundaries. -/
theorem claim_C2 (t s : ℚ) :
    (t < 0.01 → classifyRain (JNum.val t) = ⟨"none", "No rain", 0⟩)
  ∧ (0.01 ≤ t → t < 0.05 → classifyRain (JNum.val t) = ⟨"trace", "Trace moisture", 1⟩)
  ∧ (0.05 ≤ t → t < 0.15 → classifyRain (JNum.val t) = ⟨"spotty", "Spotty showers", 2⟩)
  ∧ (0.15 ≤ t → t < 0.40 → classifyRain (JNum.val t) = ⟨"light", "Light rain", 3⟩)
  ∧ (0.40 ≤ t → t < 0.75 → classifyRain (JNum.val t) = ⟨"steady", "Steady rain", 4⟩)
  ∧ (0.75 ≤ t → t < 1.25 → classifyRain (JNum.val t) = ⟨"soaking", "A soaking rain", 5⟩)
  ∧ (1.25 ≤ t → classifyRain (JNum.val t) = ⟨"heavy", "Heavy rain", 6⟩)
  ∧ (s < 0.05 → classifySnow (JNum.val s) = ⟨"none", "No snow", 0⟩)
  ∧ (0.05 ≤ s → s < 0.10 → classifySnow (JNum.val s) = ⟨"flurries", "Flurries", 1⟩)
  ∧ (0.10 ≤ s → s < 0.5 → classifySnow (JNum.val s) = ⟨"dusting", "Dusting possible", 2⟩)
  ∧ (0.5 ≤ s → s < 1.0 → classifySnow (JNum.val s) = ⟨"light", "Light accumulation", 3⟩)
  ∧ (1.0 ≤ s → s < 3.0 → classifySnow (JNum.val s) = ⟨"accumulating", "Accumulating snow", 4⟩)
  ∧ (3.0 ≤ s → s < 6.0 → classifySnow (JNum.val s) = ⟨"plowable", "Plowable snow", 5⟩)
  ∧ (6.0 ≤ s → classifySnow (JNum.val s) = ⟨"significant", "Significant snowfall", 6⟩) := by
  refine ⟨?_, ?_, ?_, ?_, ?_, ?_, ?_, ?_, ?_, ?_, ?_, ?_, ?_, ?_⟩ <;>
    · intros
      simp only [classifyRain, classifySnow, jltC, decide_eq_true_eq]
      split_ifs <;> first | rfl | linarith

/-- Witness for C2 at the concrete totals 0.30in rain and 1.5in snow. -/
theorem claim_C2_witness :
    classifyRain (JNum.val 0.30) = ⟨"light", "Light rain", 3⟩ ∧
    classifySnow (JNum.val 1.5) = ⟨"accumulating", "Accumulating snow", 4⟩ :=
  ⟨(claim_C2 0.30 1.5).2.2.2.1 (by norm_num) (by norm_num),
   (claim_C2 0.30 1.5).2.2.2.2.2.2.2.2.2.2.2.1 (by norm_num) (by norm_num)⟩

/-- C3 counterexample: classifyRain on the total 0.30 returns severity 3
"Light rain" (type "light"), not severity 4 "steady". -/
theorem claim_C3_cex :
    (classifyRain (JNum.val 0.30)).severity = 3
  ∧ (classifyRain (JNum.val 0.30)).severity ≠ 4
  ∧ (classifyRain (JNum.val 0.30)).type ≠ "steady"
  ∧ (classifyRain (JNum.val 0.30)).label ≠ "Steady rain" := by
  with_unfolding_all decide

/-- C3 amended: for the input rain total 0.30 inches, classifyRain returns
severity 3 with label "Light rain" (the "steady" bucket starts at 0.40). -/
theorem claim_C3_amended :
    classifyRain (JNum.val 0.30) = ⟨"light", "Light rain", 3⟩ := by
  with_unfolding_all decide

/-- C1 counterexample: ten hours with 0.02in rain and 0.06in snow per hour
give snow severity 3 (≥ 2) together with rain severity 3, yet
getHumanActionOutlook's badge and emoji reference rain, not snow, because
forecast-intel.js's getActionBadge checks stormy and rainy before snowy. -/
theorem claim_C1_cex :
    2 ≤ (analyzeQPF rainSnowH 0 10).snow.severity
  ∧ (analyzeQPF rainSnowH 0 10).snow.severity = 3
  ∧ (analyzeQPF rainSnowH 0 10).rain.severity = 3
  ∧ getHumanActionOutlookMain rainSnowH "2026-01-15" =
      ("🌧️", ⟨"Rainy", "badge-rainy"⟩, none) := by
  with_unfolding_all decide

/-- C1 amended: the badge priority of forecast-intel.js's getActionBadge is
goldilocks, stormy, rainy, mixed, snowy, windy, hot, cold, dry — so rain
severity 3-5 and convective precede snow, while snow severity ≥ 2 still
precedes the wind, hot and cold tiers; in the part_000 variant snowy is
checked first and always wins; and for snowTotal = 1.5in with rainTotal = 0
the outlook's badge and emoji do reference snow. -/
theorem claim_C1_priority :
    (∀ f : Flags, f.snowy = true →
      getActionBadgeB f = ⟨"Snowy", "#7bb4ff"⟩ ∧ getActionIconB f = "❄️")
  ∧ (∀ f : Flags, f.snowy = true → f.goldilocks = false → f.stormy = false →
      f.rainy = false → f.mixed = false →
      getActionBadge f = ⟨"Snowy", "badge-snowy"⟩ ∧ getActionIcon f = "🌨️")
  ∧ (analyzeQPF snowOnlyH 0 10).snow.severity = 4
  ∧ getHumanActionOutlookMain snowOnlyH "2026-01-15" =
      ("🌨️", ⟨"Snowy", "badge-snowy"⟩, none) := by
  refine ⟨?_, ?_, by with_unfolding_all decide, by with_unfolding_all decide⟩
  · intro f hs
    simp [getActionBadgeB, getActionIconB, hs]
  · intro f hs hg hst hr hm
    simp [getActionBadge, getActionIcon, hs, hg, hst, hr, hm]

/-- Witness for C1 at a concrete flags record with both snowy and rainy set:
the part_000 badge still reads Snowy. -/
theorem claim_C1_priority_witness :
    getActionBadgeB ⟨false, false, true, false, true, false, false, false, false⟩ =
      ⟨"Snowy", "#7bb4ff"⟩ :=
  (claim_C1_priority.1 ⟨false, false, true, false, true, false, false, false, false⟩ rfl).1

/-- C4 counterexample: a window in which the three conditions of the claim
are each satisfied by a different hour (direction 300 in hour 0,
temperature 30 in hour 1, snowfall 0.10 in hour 2), yet both NW-flow
detectors return false. -/
theorem claim_C4_cex :
    (detectMicroclimates splitNWH 0 3).nwFlowSnow = false
  ∧ detectNWFlowSnow splitNWH 0 3 = false
  ∧ safeNum splitNWH.winddirection_10m 0 = some 300
  ∧ ((290 : ℚ) ≤ 300 ∧ (300 : ℚ) ≤ 330)
  ∧ safeNum splitNWH.temperature_2m 1 = some 30
  ∧ ((30 : ℚ) ≤ 36)
  ∧ safeNum splitNWH.snowfall 2 = some 0.10
  ∧ ((0.05 : ℚ) < 0.10) := by
  with_unfolding_all decide

/-- C4 amended: the microclimate NW-flow flag is true exactly when some
single hour simultaneously has wind direction in [290, 330], temperature
≤ 36 and snowfall > 0.05 (with defaults 0 / 40 / 0 for absent samples),
while detectNWFlowSnow is the detector that ORs each condition across the
window — but with thresholds temperature ≤ 34, snowfall in (0, 0.20) and
gust in [18, 32]. -/
theorem claim_C4_amended : ∀ (h : Hourly) (s e : ℤ),
    ((detectMicroclimates h s e).nwFlowSnow = true ↔
      ∃ i ∈ idxRange s e, microNWCond h i = true)
  ∧ (detectNWFlowSnow h s e = true ↔
      ((∃ i ∈ idxRange s e, nwCold h i = true) ∧
       (∃ i ∈ idxRange s e, nwLightSnow h i = true) ∧
       (∃ i ∈ idxRange s e, nwGust h i = true))) := by
  intro h s e
  constructor
  · simp only [detectMicroclimates, foldl_or_eq, Bool.false_or, List.any_eq_true]
  · simp only [detectNWFlowSnow, foldl_triple_or, Bool.false_or, Bool.and_eq_true,
      List.any_eq_true]
    tauto

/-- C5 counterexample: on a 24-hour series with offsets 10 and 5 (start
offset above end offset), getRelativeWindow returns the empty window
(10, 10), not the claimed (min, max) = (5, 10). -/
theorem claim_C5_cex :
    getRelativeWindow len24H 10 5 = (10, 10)
  ∧ getRelativeWindow len24H 10 5 ≠ (5, 10)
  ∧ min (clampZ 10 0 (len24H.time.length : ℤ)) (clampZ 5 0 (len24H.time.length : ℤ)) = 5 := by
  with_unfolding_all decide

/-- C5 amended: getRelativeWindow clamps both offsets into [0, length] and
returns start = the clamped start offset and end = max of the two clamped
offsets, so 0 ≤ start ≤ end ≤ length always holds and the claimed
(min, max) window is only produced when offsetStart ≤ offsetEnd; when
offsetStart > offsetEnd the window is the empty [start, start). -/
theorem claim_C5_amended : ∀ (h : Hourly) (a b : ℤ),
    getRelativeWindow h a b =
      (clampZ a 0 (h.time.length : ℤ),
       max (clampZ a 0 (h.time.length : ℤ)) (clampZ b 0 (h.time.length : ℤ)))
  ∧ 0 ≤ (getRelativeWindow h a b).1
  ∧ (getRelativeWindow h a b).1 ≤ (getRelativeWindow h a b).2
  ∧ (getRelativeWindow h a b).2 ≤ (h.time.length : ℤ)
  ∧ (a ≤ b →
      getRelativeWindow h a b =
        (clampZ a 0 (h.time.length : ℤ), clampZ b 0 (h.time.length : ℤ))) := by
  intro h a b
  refine ⟨rfl, ?_, ?_, ?_, fun hab => ?_⟩ <;>
    simp only [getRelativeWindow, clampZ, Prod.mk.injEq]
  · omega
  · omega
  · omega
  · exact ⟨trivial, by omega⟩

/-- Witness for C5 at the concrete series of 24 hours and offsets 3, 7. -/
theorem claim_C5_witness :
    getRelativeWindow len24H 3 7 =
      (clampZ 3 0 (len24H.time.length : ℤ), clampZ 7 0 (len24H.time.length : ℤ)) :=
  (claim_C5_amended len24H 3 7).2.2.2.2 (by norm_num)

/-- C6: a NaN precipitation sample is excluded (as 0) by safeNum and
accumulatePrecip, but analyzeQPF reads the raw array with `?? 0`, so the
NaN propagates into its rain total and classifyRain puts NaN in the top
"heavy" bucket (severity 6) instead of the severity-0 bucket that an
absent-as-zero total would give. -/
theorem claim_C6_eval :
    safeNum nanH.precipitation 0 = none
  ∧ accumulatePrecip nanH 0 1 = (0, 0)
  ∧ (analyzeQPF nanH 0 1).rainTotal = JNum.nan
  ∧ (analyzeQPF nanH 0 1).rain = ⟨"heavy", "Heavy rain", 6⟩
  ∧ classifyRain (JNum.val 0) = ⟨"none", "No rain", 0⟩ := by
  with_unfolding_all decide

/-- C7: on an empty window the aggregation helpers yield all-null
temperature stats, zero precipitation totals and zero max gust, and
part_001's outlook returns the designated no-data result — but
forecast-intel.js's own getHumanActionOutlook has no no-data branch: on an
empty series its null minTemp coerces to 0, satisfying minTemp ≤ 35, and
the outlook reports badge "Cold" with emoji ❄️ instead of a neutral
no-data result. -/
theorem claim_C7_eval :
    summarizeTemps emptyH 0 0 = ⟨none, none, none, 0⟩
  ∧ accumulatePrecip emptyH 0 0 = (0, 0)
  ∧ summarizeWindGusts emptyH 0 0 = ⟨0⟩
  ∧ (∀ (inTomorrow : String → Bool) (hour : ℕ) (month : Fin 12),
      getHumanActionOutlookB emptyH inTomorrow hour month =
        ⟨⟨"No data", "badge-neutral"⟩, "❓", "Tomorrow’s outlook is unavailable",
         "We couldn’t find a usable forecast window for tomorrow."⟩)
  ∧ (∀ tomorrowStr : String,
      getHumanActionOutlookMain emptyH tomorrowStr =
        ("❄️", ⟨"Cold", "badge-cold"⟩, none)) := by
  refine ⟨by with_unfolding_all decide, by with_unfolding_all decide,
    by with_unfolding_all decide, fun _ _ _ => rfl, fun _ => ?_⟩
  with_unfolding_all rfl

set_option maxHeartbeats 4000000 in
/-- C8: classifyRain and classifySnow are monotonic in severity, and their
seven buckets partition the non-negative totals into contiguous half-open
intervals: for every total t ≥ 0 and bucket index k < 7, the classifier
assigns severity k exactly when t lies in [lo k, lo (k+1)) (the last bucket
being unbounded above), so every total falls in exactly one bucket. -/
theorem claim_C8 :
    (∀ a b : ℚ, a ≤ b →
      (classifyRain (JNum.val a)).severity ≤ (classifyRain (JNum.val b)).severity)
  ∧ (∀ a b : ℚ, a ≤ b →
      (classifySnow (JNum.val a)).severity ≤ (classifySnow (JNum.val b)).severity)
  ∧ (∀ t : ℚ, 0 ≤ t → ∀ k : ℕ, k < 7 →
      ((classifyRain (JNum.val t)).severity = k ↔
        (rainLo k ≤ t ∧ (k < 6 → t < rainLo (k + 1)))))
  ∧ (∀ t : ℚ, 0 ≤ t → ∀ k : ℕ, k < 7 →
      ((classifySnow (JNum.val t)).severity = k ↔
        (snowLo k ≤ t ∧ (k < 6 → t < snowLo (k + 1))))) := by
  refine ⟨?_, ?_, ?_, ?_⟩
  · intro a b hab
    simp only [classifyRain, jltC, decide_eq_true_eq]
    split_ifs <;> linarith
  · intro a b hab
    simp only [classifySnow, jltC, decide_eq_true_eq]
    split_ifs <;> linarith
  · intro t ht k hk
    interval_cases k <;>
      · simp only [classifyRain, jltC, decide_eq_true_eq, rainLo]
        split_ifs <;>
          simp <;>
          first
            | linarith
            | (constructor <;> intros <;> linarith)
            | (rintro ⟨h1, h2⟩; linarith)
            | (intros; linarith)
  · intro t ht k hk
    interval_cases k <;>
      · simp only [classifySnow, jltC, decide_eq_true_eq, snowLo]
        split_ifs <;>
          simp <;>
          first
            | linarith
            | (constructor <;> intros <;> linarith)
            | (rintro ⟨h1, h2⟩; linarith)
            | (intros; linarith)

/-- Witness for C8 at concrete totals: monotonicity at 1 ≤ 2 and the bucket
characterization of the rain total 0.2 (bucket 3). -/
theorem claim_C8_witness :
    ((classifyRain (JNum.val 1)).severity ≤ (classifyRain (JNum.val 2)).severity)
  ∧ ((classifyRain (JNum.val (1/5))).severity = 3 ↔
      (rainLo 3 ≤ (1/5 : ℚ) ∧ (3 < 6 → (1/5 : ℚ) < rainLo 4))) :=
  ⟨claim_C8.1 1 2 (by norm_num), claim_C8.2.2.1 (1/5) (by norm_num) 3 (by norm_num)⟩

/-- C9: with every hour at temperature 70, dewpoint 48, gust 10 and zero
precipitation (and no UV data), detectGoldilocks on the analyzed window
returns the full Goldilocks variant, and part_001's getComfortCategory on
the same inputs returns its "Goldilocks — just right." shortcut, whatever
the current hour and month — both paths report ideal-day status. -/
theorem claim_C9 :
    detectGoldilocks (analyzeQPF goldH 0 8) (analyzeThermalProfile goldH 0 8)
      (summarizeWindGusts goldH 0 8) (summarizeDewAndUV goldH 0 8)
      (detectMicroclimates goldH 0 8) = some "full"
  ∧ (∀ (hour : ℕ) (month : Fin 12),
      getComfortCategoryB 70 48 10 0 hour month =
        ⟨"Goldilocks — just right.", "🌟"⟩) :=
  ⟨by with_unfolding_all decide, fun _ _ => by with_unfolding_all rfl⟩

/-- Pushing a projection into a conditional one-element list. -/
lemma map_chunk (f : Alert → String) (b : Bool) (a : Alert) :
    (chunk b a).map f = chunkS b (f a) := by
  cases b <;> simp [chunk, chunkS]

/-- The ids of the alert list depend only on the push conditions. -/
lemma alertsCore_ids (t1 t2 : String)
    (b1 b2 b3 b4 b5 w40 w30 b6 b7 b8 : Bool) :
    (alertsCore t1 t2 b1 b2 b3 b4 b5 w40 w30 b6 b7 b8).map Alert.id =
      idsCore b1 b2 b3 b4 b5 w40 w30 b6 b7 b8 := by
  cases w40 <;> cases w30 <;>
    simp [alertsCore, idsCore, map_chunk]

/-- For every combination of push conditions: the id list has no
duplicates, never holds both wind ids, and holds no "gusty" when the
40mph tier fired. -/
lemma idsCore_ok :
    ∀ b1 b2 b3 b4 b5 w40 w30 b6 b7 b8 : Bool,
      (idsCore b1 b2 b3 b4 b5 w40 w30 b6 b7 b8).Nodup
    ∧ ¬("strongwind" ∈ idsCore b1 b2 b3 b4 b5 w40 w30 b6 b7 b8 ∧
        "gusty" ∈ idsCore b1 b2 b3 b4 b5 w40 w30 b6 b7 b8)
    ∧ (w40 = true → "gusty" ∉ idsCore b1 b2 b3 b4 b5 w40 w30 b6 b7 b8) := by
  decide

/-- C10: the alert list of getForecastAlerts always carries pairwise
distinct ids, never both the strong-wind and gusty alerts, and a max gust
≥ 40mph yields no gusty alert even though it also clears the 30mph
threshold. -/
theorem claim_C10 : ∀ h : Hourly,
    ((getForecastAlerts h).map Alert.id).Nodup
  ∧ ¬("strongwind" ∈ (getForecastAlerts h).map Alert.id ∧
      "gusty" ∈ (getForecastAlerts h).map Alert.id)
  ∧ (40 ≤ (summarizeWindGusts h (min 12 ((h.time.length : ℤ) - 1))
        (min 48 (h.time.length : ℤ))).maxGust →
      "gusty" ∉ (getForecastAlerts h).map Alert.id) := by
  intro h
  simp only [getForecastAlerts, alertsCore_ids]
  refine ⟨(idsCore_ok _ _ _ _ _ _ _ _ _ _).1,
    (idsCore_ok _ _ _ _ _ _ _ _ _ _).2.1,
    fun hg => (idsCore_ok _ _ _ _ _ _ _ _ _ _).2.2 (decide_eq_true hg)⟩

/-- Witness for C10 at the 13-hour series whose max gust in the alert
window is 45mph: the gusty alert is absent. -/
theorem claim_C10_witness :
    "gusty" ∉ (getForecastAlerts gustyH).map Alert.id :=
  (claim_C10 gustyH).2.2 (by with_unfolding_all decide)

end Weather828
